import Mathlib

/-!
Verification of the redhat-access-insights client against its
natural-language specification.  The Python sources are shallowly
embedded: each Lean definition mirrors one Python function, with the
process environment (filesystem, spawned processes, HTTP responses)
passed in explicitly and side effects recorded as explicit event
traces.  `sys.exit` is modelled as a dedicated result constructor so
that "terminates the whole run" is visible in the denotation.
-/

namespace Insights

/-! ### Constants (src/redhat_access_insights/constants.py) -/

/-- `InsightsConstants.sleep_time = 300` : the fixed inter-attempt upload delay. -/
def sleep_time : Nat := 300

/-- `InsightsConstants.default_cmd_timeout = 600` : default command execution timeout. -/
def default_cmd_timeout : Int := 600

/-- `InsightsConstants.collection_rules_file` (the cached-rules store path). -/
def collection_rules_file : String := "/etc/redhat-access-insights/.cache.json"

/-- `InsightsConstants.collection_fallback_file` (the bundled fallback store path). -/
def collection_fallback_file : String := "/etc/redhat-access-insights/.fallback.json"

/-! ### Upload pipeline (src/insights_client/__init__.py `_do_upload`,
src/insights_client/connection.py `InsightsConnection.handle_fail_rcs`,
src/redhat_access_insights/utilities.py `write_unregistered_file`) -/

/-- Observable side effects of the upload loop and the registration-marker
helpers.  Logging calls are not recorded (they carry no state). -/
inductive UEv where
  /-- one `pconn.upload_archive` call, tagged with the HTTP status it returned -/
  | attempt (status : Nat)
  /-- `time.sleep(constants.sleep_time)` between attempts -/
  | sleepDelay (secs : Nat)
  /-- `write_lastupload_file()` : persist the last-upload marker -/
  | writeLastUpload
  /-- `delete_registered_file()` : remove the `.registered` marker (if present) -/
  | deleteRegisteredMarker
  /-- write the `.unregistered` marker file with the given content -/
  | writeUnregisteredMarker (content : String)
  deriving DecidableEq, Repr

/-- Result of a run of `_do_upload`: either the function returned `rc`
normally, or the process terminated through `sys.exit rc`. -/
inductive RunResult where
  | ret (rc : Nat)
  | exit (rc : Nat)
  deriving DecidableEq, Repr

/-- The parts of an upload HTTP response that `_do_upload` and
`handle_fail_rcs` inspect.  `unregisteredAt`: `none` when the JSON body has
no `unregistered_at` key, `some none` when the key is JSON `null`,
`some (some ts)` when it holds the timestamp `ts`.  `hasMessage`: whether
the body has a `message` key (read between the timestamp lookup and the
marker write in `handle_fail_rcs`). -/
structure HttpResponse where
  status : Nat
  unregisteredAt : Option (Option String) := none
  hasMessage : Bool := false

/-- `write_unregistered_file(date=None)` from
src/redhat_access_insights/utilities.py (the same-named helper that
src/insights_client/connection.py imports from its `utilities` module).
It deletes the `.registered` marker, writes the `.unregistered` marker
(with `date`, or the current time when `date is None`), and ends in
`sys.exit(rc)` with `rc = 0` for no date and `rc = 1` for a supplied
date; the returned `Nat` is that exit status. -/
def write_unregistered_file (date : Option String) (now : String) : List UEv × Nat :=
  let rc : Nat := 0
  let (d, rc) :=
    match date with
    | none => (now, rc)
    | some d => (d, 1)
  ([UEv.deleteRegisteredMarker, UEv.writeUnregisteredMarker d], rc)

/-- `InsightsConnection.handle_fail_rcs` restricted to its observable
behaviour: returns the recorded events and `some rc` when the function
ends in `sys.exit(rc)`, `none` when it returns to its caller (status
< 400).  For a 412 it reads `unregistered_at` then `message` from the
body (a missing key raises `LookupError`, caught without persisting)
and calls `write_unregistered_file` (which itself exits). -/
def handle_fail_rcs (r : HttpResponse) (now : String) : List UEv × Option Nat :=
  if r.status ≥ 400 then
    if r.status = 412 then
      match r.unregisteredAt with
      | some d =>
        if r.hasMessage then
          let (evs, rc) := write_unregistered_file d now
          (evs, some rc)
        else ([], some 1)
      | none => ([], some 1)
    else ([], some 1)
  else ([], none)

/-- The body of `_do_upload`'s `for tries in range(retries)` loop.
`resp i` is the response `upload_archive` returns on attempt `i`;
`remaining` is the number of loop iterations left (`retries - tries` at
the entry point).  Mirrors src/insights_client/__init__.py lines
595-617: 201 writes the last-upload marker and breaks with rc 0; 412
goes through `handle_fail_rcs`; any other status sleeps
`constants.sleep_time` unless this was the last permitted attempt, in
which case rc becomes 1. -/
def uploadAux (resp : Nat → HttpResponse) (now : String) (retries : Nat) :
    Nat → Nat → List UEv × RunResult
  | _, 0 => ([], RunResult.ret 0)
  | tries, remaining + 1 =>
    let u := resp tries
    if u.status = 201 then
      ([UEv.attempt 201, UEv.writeLastUpload], RunResult.ret 0)
    else if u.status = 412 then
      match handle_fail_rcs u now with
      | (evs, some rc) => (UEv.attempt 412 :: evs, RunResult.exit rc)
      | (evs, none) =>
        let (evs2, res) := uploadAux resp now retries (tries + 1) remaining
        (UEv.attempt 412 :: evs ++ evs2, res)
    else
      if tries + 1 ≠ retries then
        let (evs2, res) := uploadAux resp now retries (tries + 1) remaining
        (UEv.attempt u.status :: UEv.sleepDelay sleep_time :: evs2, res)
      else
        ([UEv.attempt u.status], RunResult.ret 1)

/-- `_do_upload(pconn, tar_file, ..., rc=0)` with
`InsightsClient.options.retries = retries`. -/
def do_upload (resp : Nat → HttpResponse) (now : String) (retries : Nat) :
    List UEv × RunResult :=
  uploadAux resp now retries 0 retries

/-- Server that answers 500 on the first two attempts and 201 afterwards. -/
def respTwo500Then201 : Nat → HttpResponse :=
  fun i => if i < 2 then { status := 500 } else { status := 201 }

/-- Server that always answers 500. -/
def respAlways500 : Nat → HttpResponse :=
  fun _ => { status := 500 }

end Insights

namespace Insights

/-- C1: with `max_retries = 3`, responses `[500, 500, 201]` give exactly 3
attempts with exactly 2 inter-attempt delays, the last-upload marker is
written, and the run returns 0; responses `[500, 500, 500]` give exactly 3
attempts, return code 1, and no delay after the final attempt (the trace
ends with the third attempt). -/
theorem upload_retry_traces (now : String) :
    do_upload respTwo500Then201 now 3 =
      ([UEv.attempt 500, UEv.sleepDelay 300, UEv.attempt 500, UEv.sleepDelay 300,
        UEv.attempt 201, UEv.writeLastUpload], RunResult.ret 0) ∧
    do_upload respAlways500 now 3 =
      ([UEv.attempt 500, UEv.sleepDelay 300, UEv.attempt 500, UEv.sleepDelay 300,
        UEv.attempt 500], RunResult.ret 1) := by
  constructor <;> rfl

/-- C2 counterexample: two 412 responses on which the claim, as stated,
fails.  First, a body with `unregistered_at: null` and a `message` key:
`handle_fail_rcs` calls `write_unregistered_file(None)`, which records
the *current time* and exits with status **0** — not a non-zero status.
Second, a body carrying a non-null `unregistered_at` timestamp but no
`message` key: reading `req.json()["message"]` raises `LookupError`
before `write_unregistered_file` is reached, so the run exits 1
*without* persisting the server-supplied timestamp. -/
theorem upload_412_claim_counterexample :
    uploadAux (fun _ => { status := 412, unregisteredAt := some none,
                          hasMessage := true }) "T0" 3 0 3 =
      ([UEv.attempt 412, UEv.deleteRegisteredMarker,
        UEv.writeUnregisteredMarker "T0"], RunResult.exit 0) ∧
    uploadAux (fun _ => { status := 412,
                          unregisteredAt := some (some "2015-01-01T00:00:00"),
                          hasMessage := false }) "T0" 3 0 3 =
      ([UEv.attempt 412], RunResult.exit 1) := by
  constructor <;> rfl

/-- C2 amended: every 412 response, no matter how many retries remain,
stops the loop at that single attempt and terminates the whole run via
`sys.exit`; the four possible body shapes behave as follows.  (1) A
non-null `unregistered_at` timestamp together with a `message` key:
the timestamp is persisted as the local registration record
(registered-marker delete, unregistered-marker write) and the exit
status is 1.  (2) No `message` key: exit status 1 with nothing
persisted.  (3) No `unregistered_at` key: exit status 1 with nothing
persisted.  (4) `unregistered_at: null` with a `message` key: the
*current time* is persisted and the exit status is 0. -/
theorem upload_412_always_exits (resp : Nat → HttpResponse) (now : String)
    (retries tries remaining : Nat)
    (hst : (resp tries).status = 412) :
    (∀ ts : String, (resp tries).unregisteredAt = some (some ts) →
       (resp tries).hasMessage = true →
       uploadAux resp now retries tries (remaining + 1) =
         ([UEv.attempt 412, UEv.deleteRegisteredMarker,
           UEv.writeUnregisteredMarker ts], RunResult.exit 1)) ∧
    ((resp tries).hasMessage = false →
       uploadAux resp now retries tries (remaining + 1) =
         ([UEv.attempt 412], RunResult.exit 1)) ∧
    ((resp tries).unregisteredAt = none →
       uploadAux resp now retries tries (remaining + 1) =
         ([UEv.attempt 412], RunResult.exit 1)) ∧
    ((resp tries).unregisteredAt = some none →
       (resp tries).hasMessage = true →
       uploadAux resp now retries tries (remaining + 1) =
         ([UEv.attempt 412, UEv.deleteRegisteredMarker,
           UEv.writeUnregisteredMarker now], RunResult.exit 0)) := by
  refine ⟨?_, ?_, ?_, ?_⟩
  · intro ts hun hmsg
    unfold uploadAux
    simp only [hst, hun, hmsg, handle_fail_rcs, write_unregistered_file]
    norm_num
  · intro hmsg
    unfold uploadAux
    rcases hun : (resp tries).unregisteredAt with _ | d
    · simp only [hst, hun, handle_fail_rcs]
      norm_num
    · simp only [hst, hun, hmsg, handle_fail_rcs]
      norm_num
  · intro hun
    unfold uploadAux
    simp only [hst, hun, handle_fail_rcs]
    norm_num
  · intro hun hmsg
    unfold uploadAux
    simp only [hst, hun, hmsg, handle_fail_rcs, write_unregistered_file]
    norm_num

/-- Witness for `upload_412_always_exits`: a concrete 412 response with a
non-null timestamp and a message persists the timestamp and exits 1 at
the first of three permitted attempts. -/
theorem upload_412_always_exits_witness :
    uploadAux (fun _ => { status := 412, unregisteredAt := some (some "2016-02-01T12:00:00"),
                          hasMessage := true }) "T0" 3 0 2 =
      ([UEv.attempt 412, UEv.deleteRegisteredMarker,
        UEv.writeUnregisteredMarker "2016-02-01T12:00:00"], RunResult.exit 1) :=
  (upload_412_always_exits
      (fun _ => { status := 412, unregisteredAt := some (some "2016-02-01T12:00:00"),
                  hasMessage := true }) "T0" 3 0 2 rfl).1 "2016-02-01T12:00:00" rfl rfl

/-- C10: `write_unregistered_file` always ends in `sys.exit` (its
denotation is an event trace plus the exit status — it never returns to
its caller): it first deletes the `.registered` marker, then writes the
`.unregistered` marker, and the exit status is 0 when called with no
date (the marker records the current time) and 1 when called with a
server-supplied date. -/
theorem write_unregistered_file_spec (date : Option String) (now : String) :
    write_unregistered_file date now =
      ([UEv.deleteRegisteredMarker,
        UEv.writeUnregisteredMarker (date.getD now)],
       match date with | none => 0 | some _ => 1) := by
  cases date <;> rfl

end Insights

namespace Insights

/-! ### Registration status check
(src/insights_client/connection.py `InsightsConnection.api_registration_check`,
lines 656-691: interpretation of the `unregistered_at` field) -/

/-- A JSON value as far as the `unregistered_at` field is concerned:
`null` or a string. -/
inductive JVal where
  | null
  | str (s : String)
  deriving DecidableEq, Repr

/-- The Python values `api_registration_check` can return for the field
interpretation: `None` (never registered), `True` (registered), or the
unregistration timestamp itself. -/
inductive RegCheckRet where
  | retNone
  | retTrue
  | retTimestamp (ts : String)
  deriving DecidableEq, Repr

/-- The field interpretation in `api_registration_check`:
`unreg_status = json.loads(res.content).get('unregistered_at', 'undefined')`,
then `'undefined'` maps to `None`, JSON `null` maps to `True`, and anything
else is returned as the unregistration timestamp.  `field` is `none` when
the response body has no `unregistered_at` key. -/
def api_registration_check_interpret (field : Option JVal) : RegCheckRet :=
  let unreg_status : JVal :=
    match field with
    | none => JVal.str "undefined"
    | some v => v
  if unreg_status = JVal.str "undefined" then
    RegCheckRet.retNone
  else
    match unreg_status with
    | JVal.null => RegCheckRet.retTrue
    | JVal.str s => RegCheckRet.retTimestamp s

/-- C9 counterexample: a response whose `unregistered_at` field is present
with the non-null string value `"undefined"` is reported as never
registered (`None`), not as an unregistration timestamp — the `.get`
default sentinel makes that value indistinguishable from an absent
field, refuting the claim that every present non-null value is returned
as the timestamp. -/
theorem api_registration_check_undefined_sentinel :
    api_registration_check_interpret (some (JVal.str "undefined")) = RegCheckRet.retNone ∧
    api_registration_check_interpret (some (JVal.str "undefined")) ≠
      RegCheckRet.retTimestamp "undefined" := by
  constructor <;> decide

/-- C9 amended: field absent means never registered (`None`); field present
with null value means registered (`True`); field present with a non-null
value *other than the literal string "undefined"* means the value is
returned as the unregistration timestamp; the sentinel string
`"undefined"` is treated like an absent field. -/
theorem api_registration_check_spec :
    api_registration_check_interpret none = RegCheckRet.retNone ∧
    api_registration_check_interpret (some JVal.null) = RegCheckRet.retTrue ∧
    (∀ s : String, s ≠ "undefined" →
      api_registration_check_interpret (some (JVal.str s)) = RegCheckRet.retTimestamp s) ∧
    api_registration_check_interpret (some (JVal.str "undefined")) = RegCheckRet.retNone := by
  refine ⟨rfl, rfl, ?_, rfl⟩
  intro s hs
  simp [api_registration_check_interpret, hs]

/-- Witness for `api_registration_check_spec` at a concrete timestamp. -/
theorem api_registration_check_spec_witness :
    "2015-03-01T13:00:00" ≠ "undefined" ∧
    api_registration_check_interpret (some (JVal.str "2015-03-01T13:00:00")) =
      RegCheckRet.retTimestamp "2015-03-01T13:00:00" :=
  ⟨by decide, api_registration_check_spec.2.2.1 "2015-03-01T13:00:00" (by decide)⟩

/-! ### Python string primitives

The Lean core `String` functions (`splitOn`, `startsWith`, `endsWith`,
`replace`, `toLower`) are implemented by position arithmetic or
well-founded recursion and do not reduce inside the kernel, so the
Python `str` methods the sources use are re-implemented here by
structural recursion over the character list. -/

/-- `List Char` version of "the second list is a prefix of the first". -/
def charsStartsWith : List Char → List Char → Bool
  | _, [] => true
  | [], _ :: _ => false
  | a :: as, b :: bs => a == b && charsStartsWith as bs

/-- Python `s.startswith(p)`. -/
def pyStartsWith (s p : String) : Bool :=
  charsStartsWith s.data p.data

/-- Python `s.endswith(p)`. -/
def pyEndsWith (s p : String) : Bool :=
  charsStartsWith s.data.reverse p.data.reverse

/-- Split a character list on a separator character, Python
`str.split(sep)` style: splitting the empty string gives `[""]`, and
adjacent separators give empty fields. -/
def splitChar (sep : Char) : List Char → List (List Char)
  | [] => [[]]
  | c :: cs =>
    if c == sep then
      [] :: splitChar sep cs
    else
      match splitChar sep cs with
      | [] => [[c]]
      | h :: t => (c :: h) :: t

/-- Python `s.split(sep)` for a one-character separator (every `split`
call in the embedded sources uses a one-character separator). -/
def pySplit (s : String) (sep : Char) : List String :=
  (splitChar sep s.data).map String.mk

/-- Python `s.replace(c, '')` for a one-character pattern: remove every
occurrence of the character. -/
def pyRemoveAll (s : String) (c : Char) : String :=
  String.mk (s.data.filter (fun x => x != c))

/-- Python `c in s` for a single character. -/
def pyContainsChar (s : String) (c : Char) : Bool :=
  s.data.contains c

/-- Python `s.lower()` (ASCII, which is all the sources compare). -/
def pyToLower (s : String) : String :=
  String.mk (s.data.map Char.toLower)

/-! ### Proxy resolution
(src/insights_client/connection.py `InsightsConnection.get_proxies`, lines 134-209) -/

/-- Python truthiness of an optional environment/config string:
`None` and `""` are falsy. -/
def pyTruthy : Option String → Bool
  | none => false
  | some s => s != ""

/-- The proxy-authorization value built by `requests.auth._basic_auth_str`,
abstracted as its (user, password) arguments. -/
inductive ProxyAuth where
  | basic (user password : String)
  deriving DecidableEq, Repr

/-- The `'@' in proxy` handling shared by the config and environment
branches of `get_proxies`: split off embedded `user:pass@` credentials,
rebuilding the url as `scheme://location`.  A malformed userinfo part
(too few `:`-separated fields) raises `IndexError` in the Python code,
modelled as `Except.error`. -/
def splitProxyUserinfo (p : String) : Except Unit (String × Option ProxyAuth) :=
  if pyContainsChar p '@' then
    let scheme := ((pySplit p ':').headD "") ++ "://"
    let atParts := pySplit p '@'
    let colonParts := pySplit (atParts.headD "") ':'
    match atParts[1]?, colonParts[1]?, colonParts[2]? with
    | some location, some username, some password =>
      Except.ok (scheme ++ location, some (ProxyAuth.basic (pyRemoveAll username '/') password))
    | _, _, _ => Except.error ()
  else
    Except.ok (p, none)

/-- One `NO_PROXY` entry matched against the target host: literal `*`
matches everything, an entry starting with `.` or `*` is a suffix match
after removing every `*`, anything else must be exactly equal. -/
def noProxyEntryMatches (no_proxy_host insights_service_host : String) : Bool :=
  if no_proxy_host = "*" then true
  else if pyStartsWith no_proxy_host "." || pyStartsWith no_proxy_host "*" then
    pyEndsWith insights_service_host (pyRemoveAll no_proxy_host '*')
  else no_proxy_host = insights_service_host

/-- The `for no_proxy_host in no_proxy.split(',')` loop of `get_proxies`:
entries are checked in order and the first match breaks out, disabling
the proxy. -/
def noProxyMatchLoop (insights_service_host : String) : List String → Bool
  | [] => false
  | e :: rest =>
    if e = "*" then true
    else if pyStartsWith e "." || pyStartsWith e "*" then
      if pyEndsWith insights_service_host (pyRemoveAll e '*') then true
      else noProxyMatchLoop insights_service_host rest
    else if e = insights_service_host then true
    else noProxyMatchLoop insights_service_host rest

/-- Whether the comma-separated `NO_PROXY` value disables the proxy for
the given target host. -/
def noProxyDisables (no_proxy insights_service_host : String) : Bool :=
  noProxyMatchLoop insights_service_host (pySplit no_proxy ',')

/-- The config-proxy guard of `get_proxies`:
`conf_proxy is not None and conf_proxy.lower() != 'none' and conf_proxy != ""`. -/
def confProxySet : Option String → Bool
  | none => false
  | some c => (pyToLower c != "none") && (c != "")

/-- `self.proxies` / `self.proxy_auth` as set by `get_proxies`;
`proxies = none` means no proxy is used. -/
structure ProxyDecision where
  proxies : Option String
  proxyAuth : Option ProxyAuth
  deriving DecidableEq, Repr

/-- `InsightsConnection.get_proxies`, with the configured proxy, the
`HTTPS_PROXY` and `NO_PROXY` environment variables, and the hostname of
`self.base_url` passed explicitly.  The `NO_PROXY` loop runs only in the
no-configured-proxy branch; a match resets both the proxy and the proxy
auth to `None`. -/
def get_proxies (conf_proxy env_https_proxy env_no_proxy : Option String)
    (insights_service_host : String) : Except Unit ProxyDecision :=
  if confProxySet conf_proxy then
    match splitProxyUserinfo (conf_proxy.getD "") with
    | Except.error e => Except.error e
    | Except.ok (url, auth) => Except.ok ⟨some url, auth⟩
  else
    let envStep : Except Unit (Option String × Option ProxyAuth) :=
      if pyTruthy env_https_proxy then
        match splitProxyUserinfo (env_https_proxy.getD "") with
        | Except.error e => Except.error e
        | Except.ok (url, auth) => Except.ok (some url, auth)
      else Except.ok (none, none)
    match envStep with
    | Except.error e => Except.error e
    | Except.ok (proxies, proxy_auth) =>
      if pyTruthy env_no_proxy then
        if noProxyDisables (env_no_proxy.getD "") insights_service_host then
          Except.ok ⟨none, none⟩
        else Except.ok ⟨proxies, proxy_auth⟩
      else Except.ok ⟨proxies, proxy_auth⟩

/-- The `NO_PROXY` loop disables the proxy exactly when some entry matches
the target host (the loop checks entries in order and the first match
breaks; since a match always yields `true`, the outcome is the
existential over entries). -/
theorem noProxyMatchLoop_eq_any (host : String) (entries : List String) :
    noProxyMatchLoop host entries = entries.any (noProxyEntryMatches · host) := by
  induction entries with
  | nil => rfl
  | cons e rest ih =>
    simp only [noProxyMatchLoop, List.any_cons]
    rw [ih]
    by_cases h1 : e = "*"
    · simp [noProxyEntryMatches, h1]
    · by_cases h2 : (pyStartsWith e "." || pyStartsWith e "*") = true
      · by_cases h3 : pyEndsWith host (pyRemoveAll e '*') = true
        · simp [noProxyEntryMatches, h1, h2, h3]
        · simp [noProxyEntryMatches, h1, h2, h3]
      · by_cases h4 : e = host
        · simp [noProxyEntryMatches, h1, h2, h4, Bool.or_assoc]
        · simp [noProxyEntryMatches, h1, h2, h4]

end Insights

namespace Insights

/-- C4: proxy resolution precedence and `NO_PROXY` semantics.
(1) A configured proxy always wins: the result is the configured url and
auth for every environment proxy and every `NO_PROXY` value, so
`NO_PROXY` is suppressed entirely.  (2) When no proxy is configured and
the candidate came from the environment, `NO_PROXY` is consulted and a
match disables both proxy and auth.  (3) A `*` entry disables the proxy
for every host.  (4) `NO_PROXY=".example.com"` disables the proxy for
host `a.example.com` but not for host `example.com`.  (5) An entry that
is not `*` and starts with neither `.` nor `*` matches only by exact
equality.  (6) Entries are checked in order with the first match
disabling the proxy, so the loop outcome is "some entry matches". -/
theorem get_proxies_spec :
    (∀ (c : String) (envp nop : Option String) (host url : String)
       (auth : Option ProxyAuth),
       confProxySet (some c) = true →
       splitProxyUserinfo c = Except.ok (url, auth) →
       get_proxies (some c) envp nop host = Except.ok ⟨some url, auth⟩) ∧
    (∀ (conf : Option String) (e nop host url : String) (auth : Option ProxyAuth),
       confProxySet conf = false → e ≠ "" → nop ≠ "" →
       splitProxyUserinfo e = Except.ok (url, auth) →
       get_proxies conf (some e) (some nop) host =
         Except.ok (if noProxyDisables nop host then ⟨none, none⟩
                    else ⟨some url, auth⟩)) ∧
    (∀ host : String, noProxyDisables "*" host = true) ∧
    (noProxyDisables ".example.com" "a.example.com" = true ∧
     noProxyDisables ".example.com" "example.com" = false) ∧
    (∀ (e host : String), e ≠ "*" → pyStartsWith e "." = false →
       pyStartsWith e "*" = false →
       (noProxyEntryMatches e host = true ↔ e = host)) ∧
    (∀ (host : String) (entries : List String),
       noProxyMatchLoop host entries = entries.any (noProxyEntryMatches · host)) := by
  refine ⟨?_, ?_, ?_, ⟨by decide, by decide⟩, ?_, noProxyMatchLoop_eq_any⟩
  · intro c envp nop host url auth hconf hsplit
    simp [get_proxies, hconf, hsplit]
  · intro conf e nop host url auth hconf he hnop hsplit
    have he' : pyTruthy (some e) = true := by simp [pyTruthy, he]
    have hnop' : pyTruthy (some nop) = true := by simp [pyTruthy, hnop]
    by_cases hd : noProxyDisables nop host = true
    · simp [get_proxies, hconf, he', hnop', hsplit, hd]
    · simp [get_proxies, hconf, he', hnop', hsplit, hd]
  · intro host
    show noProxyMatchLoop host (pySplit "*" ',') = true
    have : pySplit "*" ',' = ["*"] := by decide
    rw [this]
    rfl
  · intro e host h1 h2 h3
    simp [noProxyEntryMatches, h1, h2, h3]

/-- Witness for `get_proxies_spec` at concrete proxies and hosts:
a configured proxy beats both `HTTPS_PROXY` and `NO_PROXY="*"`;
without a configured proxy, `NO_PROXY=".example.com"` disables the
environment proxy for `a.example.com` but not for `example.com`. -/
theorem get_proxies_spec_witness :
    get_proxies (some "http://proxy.corp:3128") (some "http://env:8080") (some "*")
        "cert-api.access.redhat.com" =
      Except.ok ⟨some "http://proxy.corp:3128", none⟩ ∧
    get_proxies none (some "http://env:8080") (some ".example.com") "a.example.com" =
      Except.ok ⟨none, none⟩ ∧
    get_proxies none (some "http://env:8080") (some ".example.com") "example.com" =
      Except.ok ⟨some "http://env:8080", none⟩ := by
  refine ⟨?_, ?_, ?_⟩
  · exact get_proxies_spec.1 "http://proxy.corp:3128" (some "http://env:8080") (some "*")
      "cert-api.access.redhat.com" "http://proxy.corp:3128" none (by decide) (by rfl)
  · have h := get_proxies_spec.2.1 none "http://env:8080" ".example.com" "a.example.com"
      "http://env:8080" none rfl (by decide) (by decide) (by rfl)
    simpa [show noProxyDisables ".example.com" "a.example.com" = true from by decide] using h
  · have h := get_proxies_spec.2.1 none "http://env:8080" ".example.com" "example.com"
      "http://env:8080" none rfl (by decide) (by decide) (by rfl)
    simpa [show noProxyDisables ".example.com" "example.com" = false from by decide] using h

end Insights

namespace Insights

/-! ### Collection-rules loading, cached mode
(src/insights_client/collection_rules.py `InsightsConfig.try_disk` lines
69-88 and `InsightsConfig.get_conf` lines 200-215, the
`for conf_file in [self.collection_rules_file, self.fallback_file]` branch) -/

/-- What a rule-store file on disk can hold, as far as `try_disk`
distinguishes: missing, empty, invalid JSON, or a parsed JSON object
(modelled as its key/value pairs; `version` is the key that matters). -/
inductive DiskContent where
  | empty
  | invalidJson
  | parsed (d : List (String × String))
  deriving DecidableEq, Repr

/-- A rule store: absent, or present with a GPG-signature verdict and
content.  `sigOk` is the boolean result of the external
`validate_gpg_sig` capability (which `sys.exit`s on failure). -/
inductive DiskState where
  | absent
  | present (sigOk : Bool) (c : DiskContent)
  deriving DecidableEq, Repr

/-- The fatal terminations rule-set loading can take (`sys.exit`). -/
inductive LoadExit where
  /-- `validate_gpg_sig` failed: "Unable to validate GPG signature" -/
  | badSig
  /-- `try_disk`: "ERROR: Invalid JSON in %s" then `sys.exit(1)` -/
  | invalidJson
  /-- `get_conf`: "ERROR: Could not find version in json" then `sys.exit(1)` -/
  | noVersion
  /-- `get_conf` fell off the store list: "Unable to download conf or read it from disk!" -/
  | unavailable
  deriving DecidableEq, Repr

/-- `InsightsConfig.try_disk(path, gpg)`: `none` when the file is missing
or empty (the function returns `None`), `some d` for parsed JSON, and a
fatal exit for a bad signature (checked first, when `gpg` is on) or
invalid JSON. -/
def try_disk (s : DiskState) (gpg : Bool) : Except LoadExit (Option (List (String × String))) :=
  match s with
  | DiskState.absent => Except.ok none
  | DiskState.present sigOk c =>
    if gpg && !sigOk then Except.error LoadExit.badSig
    else
      match c with
      | DiskContent.empty => Except.ok none
      | DiskContent.invalidJson => Except.error LoadExit.invalidJson
      | DiskContent.parsed d => Except.ok (some d)

/-- The store loop of `get_conf` in cached mode (no update, no stdin
document): walk the store list in order; a store whose `try_disk` result
is truthy (a non-empty parsed object) must have a `version` key or the
whole load exits fatally; a falsy result (missing file, empty file, or
JSON that parsed to an empty/falsy value) moves on to the next store;
an exhausted list is the "unable to read conf" fatal exit.  On success
the conf is returned with its `file` key set to the winning path. -/
def getConfStores (gpg : Bool) :
    List (String × DiskState) → Except LoadExit (List (String × String) × String)
  | [] => Except.error LoadExit.unavailable
  | (path, st) :: rest =>
    match try_disk st gpg with
    | Except.error e => Except.error e
    | Except.ok none => getConfStores gpg rest
    | Except.ok (some d) =>
      if d.isEmpty then getConfStores gpg rest
      else
        match d.lookup "version" with
        | none => Except.error LoadExit.noVersion
        | some _ => Except.ok (d ++ [("file", path)], path)

/-- `InsightsConfig.get_conf(update=False, stdin_config=None)` restricted
to rule-set loading: try the cached-rules store, then the bundled
fallback store. -/
def get_conf_cached (gpg : Bool) (cached fallback : DiskState) :
    Except LoadExit (List (String × String) × String) :=
  getConfStores gpg
    [(collection_rules_file, cached), (collection_fallback_file, fallback)]

/-- C3 counterexample: when the cached store parses to a non-empty
document that lacks `version` and the fallback store holds a perfectly
good versioned document, loading exits fatally ("Could not find version
in json") instead of consulting the fallback store — refuting the claim
that the next store is still consulted after a parsed-but-versionless
document. -/
theorem get_conf_version_no_fallthrough :
    get_conf_cached true
        (DiskState.present true (DiskContent.parsed [("files", "x")]))
        (DiskState.present true (DiskContent.parsed [("version", "1.0")])) =
      Except.error LoadExit.noVersion := by
  rfl

/-- C3 amended: in cached mode the loader tries the cached-rules store
then the bundled fallback store and returns the first document that
parses to a non-empty value and has a `version` field (with `file` set
to the winning path); the next store is consulted only when the current
store is missing or its content is empty/falsy; a store that parses to
a non-empty document lacking `version` aborts the load fatally at once,
without consulting the next store (as do a bad signature and invalid
JSON); and when neither store yields a document the load fails fatally
with the "unable to read conf" exit. -/
theorem get_conf_cached_spec :
    (∀ (gpg : Bool) (cached fallback : DiskState),
       try_disk cached gpg = Except.ok none →
       get_conf_cached gpg cached fallback =
         getConfStores gpg [(collection_fallback_file, fallback)]) ∧
    (∀ (gpg : Bool) (cached fallback : DiskState) (d : List (String × String)) (v : String),
       try_disk cached gpg = Except.ok (some d) → d.isEmpty = false →
       d.lookup "version" = some v →
       get_conf_cached gpg cached fallback =
         Except.ok (d ++ [("file", collection_rules_file)], collection_rules_file)) ∧
    (∀ (gpg : Bool) (cached fallback : DiskState) (d : List (String × String)),
       try_disk cached gpg = Except.ok (some d) → d.isEmpty = false →
       d.lookup "version" = none →
       get_conf_cached gpg cached fallback = Except.error LoadExit.noVersion) ∧
    (∀ (gpg : Bool) (cached fallback : DiskState),
       try_disk cached gpg = Except.ok none →
       try_disk fallback gpg = Except.ok none →
       get_conf_cached gpg cached fallback = Except.error LoadExit.unavailable) := by
  refine ⟨?_, ?_, ?_, ?_⟩
  · intro gpg cached fallback h
    simp [get_conf_cached, getConfStores, h]
  · intro gpg cached fallback d v h hne hv
    simp [get_conf_cached, getConfStores, h, hne, hv]
  · intro gpg cached fallback d h hne hv
    simp [get_conf_cached, getConfStores, h, hne, hv]
  · intro gpg cached fallback h1 h2
    simp [get_conf_cached, getConfStores, h1, h2]

/-- Witness for `get_conf_cached_spec`: an absent cached store falls
through to a versioned fallback store, which wins. -/
theorem get_conf_cached_spec_witness :
    get_conf_cached true DiskState.absent
        (DiskState.present true (DiskContent.parsed [("version", "1.0")])) =
      Except.ok ([("version", "1.0"), ("file", collection_fallback_file)],
        collection_fallback_file) := by
  have h := get_conf_cached_spec.1 true DiskState.absent
    (DiskState.present true (DiskContent.parsed [("version", "1.0")])) rfl
  rw [h]
  rfl

end Insights

namespace Insights

/-! ### Task expansion
(src/insights_client/data_collector.py `DataCollector._parse_file_spec`
lines 94-115, `DataCollector._parse_command_spec` lines 132-154,
`DataCollector._run_pre_command` lines 80-92, and
src/redhat_access_insights/utilities.py `_expand_paths` lines 165-183) -/

/-- Fuel-bounded one-pass replace over characters (fuel = input length
suffices): Python `s.replace(pat, repl)` for a non-empty pattern. -/
def replaceFuel (pat repl : List Char) : Nat → List Char → List Char
  | 0, s => s
  | _ + 1, [] => []
  | n + 1, c :: cs =>
    if !pat.isEmpty && charsStartsWith (c :: cs) pat then
      repl ++ replaceFuel pat repl n (List.drop (pat.length - 1) cs)
    else
      c :: replaceFuel pat repl n cs

/-- Python `s.replace(pat, repl)` (non-overlapping, left to right). -/
def pyReplace (s pat repl : String) : String :=
  String.mk (replaceFuel pat.data repl.data s.data.length s.data)

/-- Split a character list at its last `/`, returning the head part
(including that slash) and the tail part; `none` when there is no slash.
This is `i = p.rfind('/') + 1; (p[:i], p[i:])` of posixpath. -/
def splitLastSlash : List Char → Option (List Char × List Char)
  | [] => none
  | c :: cs =>
    match splitLastSlash cs with
    | some (h, t) => some (c :: h, t)
    | none => if c == '/' then some (['/'], cs) else none

/-- `os.path.dirname` (posixpath): everything before the last slash,
with trailing slashes stripped unless the head is all slashes. -/
def pyDirname (p : String) : String :=
  match splitLastSlash p.data with
  | none => ""
  | some (h, _) =>
    if h.all (fun c => c == '/') then String.mk h
    else String.mk (h.reverse.dropWhile (fun c => c == '/')).reverse

/-- `os.path.basename` (posixpath): everything after the last slash. -/
def pyBasename (p : String) : String :=
  match splitLastSlash p.data with
  | none => p
  | some (_, t) => String.mk t

/-- `os.path.join(a, b)` (posixpath, two arguments). -/
def pyJoin (a b : String) : String :=
  if pyStartsWith b "/" then b
  else if a = "" || pyEndsWith a "/" then a ++ b
  else a ++ "/" ++ b

/-- The directory structure `_expand_paths` consults:
`os.path.isdir` and `os.listdir` (in listing order). -/
structure FileSystem where
  isdir : String → Bool
  listdir : String → List String

/-- `_expand_paths(path)` from src/redhat_access_insights/utilities.py:
if the parent directory exists, return the matching entries
(`re.match(basename(path), entry)`, with the regex matcher passed in as
`rematch`) joined back onto the directory, else return `None` (the
function falls off the end).  Zero matches give `some []`. -/
def _expand_paths (fs : FileSystem) (rematch : String → String → Bool)
    (path : String) : Option (List String) :=
  let dir_name := pyDirname path
  if fs.isdir dir_name then
    some (((fs.listdir dir_name).filter (fun f => rematch (pyBasename path) f)).map
      (fun f => pyJoin dir_name f))
  else
    none

/-- A `file` rule entry: the fields `_parse_file_spec` reads and copies
(`copy.copy` keeps the other keys — represented by `pattern` — intact). -/
structure FileSpec where
  file : String
  pattern : List String := []
  deriving DecidableEq, Repr

/-- The target-scoped placeholder substitution applied inside
`_parse_file_spec` before expansion. -/
def substituteTargets (s mountpoint target_name : String) : String :=
  pyReplace (pyReplace (pyReplace s "\x7bCONTAINER_MOUNT_POINT\x7d" mountpoint)
    "\x7bDOCKER_IMAGE_NAME\x7d" target_name) "\x7bDOCKER_CONTAINER_NAME\x7d" target_name

/-- `DataCollector._parse_file_spec`: a spec whose raw `file` value has no
`*` is returned as the single spec itself; otherwise the substituted
path is expanded via `_expand_paths` and one copy of the spec is
produced per expanded path (`if not expanded_paths: return []` folds
both the `None` and the empty-list results into zero specs). -/
def _parse_file_spec (fs : FileSystem) (rematch : String → String → Bool)
    (mountpoint target_name : String) (spec : FileSpec) : List FileSpec :=
  if pyContainsChar spec.file '*' then
    match _expand_paths fs rematch (substituteTargets spec.file mountpoint target_name) with
    | none => []
    | some ps =>
      if ps.isEmpty then []
      else ps.map (fun p => { spec with file := p })
  else
    [spec]

/-- A `command` rule entry as `_parse_command_spec` reads it. -/
structure CmdSpec where
  command : String
  pre_command : Option String := none
  pattern : List String := []
  deriving DecidableEq, Repr

/-- The uncaught Python exception of `_parse_command_spec`: iterating the
`None` that `_run_pre_command` returns after an `OSError` raises
`TypeError`, which the `except LookupError` handler does not catch. -/
inductive PreErr where
  | typeErrorNoneNotIterable
  deriving DecidableEq, Repr

/-- `DataCollector._parse_command_spec(spec, precmds)`.  `runPre`
abstracts `_run_pre_command`: `some lines` is `stdout.splitlines()` of
the spawned pre-command, `none` is the `return` (returning Python
`None`) taken when `Popen` raises `OSError` — e.g. `errno.ENOENT` for a
missing executable.  An alias missing from `precmds` raises
`LookupError`, which is caught and yields zero specs; a `None` from
`_run_pre_command` is iterated by `for arg in args`, raising an uncaught
`TypeError`. -/
def _parse_command_spec (precmds : List (String × String))
    (runPre : String → Option (List String)) (spec : CmdSpec) :
    Except PreErr (List CmdSpec) :=
  match spec.pre_command with
  | some precmd_alias =>
    match precmds.lookup precmd_alias with
    | some precmd =>
      match runPre precmd with
      | none => Except.error PreErr.typeErrorNoneNotIterable
      | some args =>
        Except.ok (args.map (fun arg => { spec with command := spec.command ++ " " ++ arg }))
    | none => Except.ok []
  | none => Except.ok [spec]

end Insights

namespace Insights

/-- C7: pre-command expansion in `_parse_command_spec`.  (1) The failing
case: when the alias resolves but `_run_pre_command` returns `None`
(its `except OSError` path, e.g. a missing executable, `errno.ENOENT`),
the `for arg in args` iteration raises an uncaught `TypeError` — the
code aborts rather than yielding zero tasks.  (2) An alias absent from
`pre_commands` yields zero tasks (the `LookupError` is caught with a
debug note).  (3) Otherwise expansion yields exactly one task per
output line, with the line appended as an argument to the base
command. -/
theorem parse_command_spec_behaviour :
    _parse_command_spec [("getblk", "/bin/blockdev --report")] (fun _ => none)
        { command := "/sbin/fdisk -l", pre_command := some "getblk" } =
      Except.error PreErr.typeErrorNoneNotIterable ∧
    (∀ (precmds : List (String × String)) (runPre : String → Option (List String))
       (spec : CmdSpec) (a : String),
       spec.pre_command = some a → precmds.lookup a = none →
       _parse_command_spec precmds runPre spec = Except.ok []) ∧
    (∀ (precmds : List (String × String)) (runPre : String → Option (List String))
       (spec : CmdSpec) (a pc : String) (lines : List String),
       spec.pre_command = some a → precmds.lookup a = some pc →
       runPre pc = some lines →
       _parse_command_spec precmds runPre spec =
         Except.ok (lines.map
           (fun arg => { spec with command := spec.command ++ " " ++ arg }))) := by
  refine ⟨rfl, ?_, ?_⟩
  · intro precmds runPre spec a ha hlook
    simp [_parse_command_spec, ha, hlook]
  · intro precmds runPre spec a pc lines ha hlook hrun
    simp [_parse_command_spec, ha, hlook, hrun]

/-- Witness for `parse_command_spec_behaviour`: a resolving alias whose
pre-command prints two interface names yields two tasks, one per line. -/
theorem parse_command_spec_behaviour_witness :
    _parse_command_spec [("iface", "/sbin/ip -o link")]
        (fun _ => some ["eth0", "lo"])
        { command := "/sbin/ethtool -i", pre_command := some "iface" } =
      Except.ok [{ command := "/sbin/ethtool -i eth0", pre_command := some "iface" },
                 { command := "/sbin/ethtool -i lo", pre_command := some "iface" }] := by
  have h := parse_command_spec_behaviour.2.2 [("iface", "/sbin/ip -o link")]
    (fun _ => some ["eth0", "lo"])
    { command := "/sbin/ethtool -i", pre_command := some "iface" }
    "iface" "/sbin/ip -o link" ["eth0", "lo"] rfl rfl rfl
  rw [h]
  rfl

/-- C8: file-entry expansion.  (1) A spec whose path has no wildcard
yields exactly the one spec itself.  (2) With a wildcard and a missing
parent directory, expansion yields zero specs (not an error).  (3) With
a wildcard and an existing parent directory, expansion lists that
directory and yields exactly one spec per basename matched by the
pattern (joined back onto the directory) — in particular zero matches
yield zero specs. -/
theorem parse_file_spec_expansion :
    (∀ (fs : FileSystem) (rematch : String → String → Bool) (mp tn : String)
       (spec : FileSpec),
       pyContainsChar spec.file '*' = false →
       _parse_file_spec fs rematch mp tn spec = [spec]) ∧
    (∀ (fs : FileSystem) (rematch : String → String → Bool) (mp tn : String)
       (spec : FileSpec),
       pyContainsChar spec.file '*' = true →
       fs.isdir (pyDirname (substituteTargets spec.file mp tn)) = false →
       _parse_file_spec fs rematch mp tn spec = []) ∧
    (∀ (fs : FileSystem) (rematch : String → String → Bool) (mp tn : String)
       (spec : FileSpec),
       pyContainsChar spec.file '*' = true →
       fs.isdir (pyDirname (substituteTargets spec.file mp tn)) = true →
       _parse_file_spec fs rematch mp tn spec =
         ((fs.listdir (pyDirname (substituteTargets spec.file mp tn))).filter
             (fun f => rematch (pyBasename (substituteTargets spec.file mp tn)) f)).map
           (fun f => { spec with
              file := pyJoin (pyDirname (substituteTargets spec.file mp tn)) f })) := by
  refine ⟨?_, ?_, ?_⟩
  · intro fs rematch mp tn spec h
    simp [_parse_file_spec, h]
  · intro fs rematch mp tn spec h hdir
    simp [_parse_file_spec, _expand_paths, h, hdir]
  · intro fs rematch mp tn spec h hdir
    simp only [_parse_file_spec, _expand_paths, h, hdir, if_true]
    rcases hL : (fs.listdir (pyDirname (substituteTargets spec.file mp tn))).filter
        (fun f => rematch (pyBasename (substituteTargets spec.file mp tn)) f) with _ | ⟨a, L⟩
    · simp
    · simp [List.map_map]

/-- Witness for `parse_file_spec_expansion`: expanding
`/etc/modprobe.d/*.conf` over a directory with entries
`[a.conf, b.conf, notes]` and a matcher accepting `*.conf` yields
exactly the two matching specs. -/
theorem parse_file_spec_expansion_witness :
    _parse_file_spec
        ⟨fun d => d == "/etc/modprobe.d",
         fun d => if d == "/etc/modprobe.d" then ["a.conf", "b.conf", "notes"] else []⟩
        (fun _ f => pyEndsWith f ".conf") "/" "" { file := "/etc/modprobe.d/*.conf" } =
      [{ file := "/etc/modprobe.d/a.conf" }, { file := "/etc/modprobe.d/b.conf" }] := by
  have h := parse_file_spec_expansion.2.2
    ⟨fun d => d == "/etc/modprobe.d",
     fun d => if d == "/etc/modprobe.d" then ["a.conf", "b.conf", "notes"] else []⟩
    (fun _ f => pyEndsWith f ".conf") "/" "" { file := "/etc/modprobe.d/*.conf" }
    (by decide) (by decide)
  rw [h]
  rfl

end Insights

namespace Insights

/-! ### Command execution
(src/redhat_access_insights/data_collector.py
`DataCollector._set_black_list` lines 40-44 and
`DataCollector.run_command_get_output` lines 56-177) -/

/-- `DataCollector._set_black_list`: the commands never to run. -/
def black_list : List String := ["rm", "kill", "reboot", "shutdown"]

/-- Observable process-level events of `run_command_get_output`. -/
inductive CEv where
  /-- a `Popen` call (the command itself, the sed stage, or a grep stage) -/
  | spawned
  /-- a `Timer(cmd_timeout, kill_proc, [proc])` armed with this duration -/
  | timerStarted (secs : Int)
  /-- the timer fired and `kill_proc` killed the monitored process -/
  | killedProc
  deriving DecidableEq, Repr

/-- The Python exceptions `run_command_get_output` can raise. -/
inductive CmdErr where
  /-- `raise RuntimeError("Command Blacklist")` -/
  | runtimeErrorBlacklist
  /-- re-`raise err` for an `OSError` other than `ENOENT` -/
  | osError
  deriving DecidableEq, Repr

/-- Outcome of the initial `Popen(args, ...)` call. -/
inductive PopenOutcome where
  | ok
  | enoent
  | otherOSError
  deriving DecidableEq, Repr

/-- The dict `run_command_get_output` returns. -/
structure CmdResult where
  cmd : String
  status : Int
  output : String
  deriving DecidableEq, Repr

/-- The external behaviour of the spawned pipeline: whether the initial
`Popen` raised, whether the armed timer fired before the monitored
`communicate` returned, and otherwise the pipeline's exit status and
captured output. -/
structure ExecEnv where
  popen : PopenOutcome
  timedOut : Bool
  exitCode : Int
  stdout : String

/-- Python truthiness of the `filters` argument:
`filters is not None and len(filters)`. -/
def filtersTruthy : Option (List String) → Bool
  | none => false
  | some l => !l.isEmpty

/-- `DataCollector.run_command_get_output(command, exclude, filters)`.
`mangle` abstracts `_mangle_command` (regex-based name mangling),
`cfgTimeout` is the optional `cmd_timeout` config value, `args` is
`shlex.split(command)`.  The blacklist test `set.intersection(set(args),
set(self.black_list))` runs before any `Popen`; afterwards the command
and the sed stage are spawned, plus one grep stage per active `exclude`
/ non-empty `filters`, and exactly one `Timer(cmd_timeout, ...)` guards
the final `communicate`: if it fired, the synthetic timed-out result
(status 130) is returned; otherwise status 126/127 replaces the output
with "Could not find cmd" and the pipeline result is returned. -/
def run_command_get_output (mangle : String → String) (cfgTimeout : Option Int)
    (command : String) (args : List String)
    (exclude : Option (List String)) (filters : Option (List String))
    (env : ExecEnv) : List CEv × Except CmdErr CmdResult :=
  let cmd_timeout := cfgTimeout.getD default_cmd_timeout
  if args.any (fun a => black_list.contains a) then
    ([], Except.error CmdErr.runtimeErrorBlacklist)
  else
    match env.popen with
    | PopenOutcome.enoent =>
      ([CEv.spawned], Except.ok { cmd := mangle command, status := 127,
                                  output := "Command not found" })
    | PopenOutcome.otherOSError => ([CEv.spawned], Except.error CmdErr.osError)
    | PopenOutcome.ok =>
      let evs := CEv.spawned :: CEv.spawned ::
        ((if exclude.isSome then [CEv.spawned] else []) ++
         (if filtersTruthy filters then [CEv.spawned] else []) ++
         [CEv.timerStarted cmd_timeout])
      if env.timedOut then
        (evs ++ [CEv.killedProc],
         Except.ok { cmd := mangle command, status := 130,
                     output := "Command took to long to run. Exiting." })
      else
        let stdout :=
          if env.exitCode = 126 ∨ env.exitCode = 127 then
            "Could not find cmd: " ++ command
          else env.stdout
        (evs, Except.ok { cmd := mangle command, status := env.exitCode,
                          output := stdout })

end Insights

namespace Insights

/-- C5 counterexample: the blacklist test is
`set.intersection(set(args), set(self.black_list))` over *all* tokens,
so `echo rm` — whose first token `echo` is not in the denylist — is
still refused.  This refutes the claim that a command whose first token
is not denylisted is never rejected by the check. -/
theorem run_command_blacklist_any_token :
    black_list.contains "echo" = false ∧
    ["echo", "rm"].head? = some "echo" ∧
    run_command_get_output (fun c => c) none "echo rm" ["echo", "rm"] none none
        ⟨PopenOutcome.ok, false, 0, ""⟩ =
      ([], Except.error CmdErr.runtimeErrorBlacklist) := by
  refine ⟨by decide, rfl, by rfl⟩

/-- C5 amended: the Collector refuses a command, before spawning any
process (empty event trace), exactly when *some* token of the command
line is in the fixed denylist `rm, kill, reboot, shutdown`; in
particular a first token in the denylist is refused, and a command none
of whose tokens is denylisted is never rejected by the blacklist
check. -/
theorem run_command_blacklist_spec :
    (∀ (mangle : String → String) (cfgTimeout : Option Int) (command : String)
       (args : List String) (exclude filters : Option (List String)) (env : ExecEnv)
       (t : String),
       args.head? = some t → black_list.contains t = true →
       run_command_get_output mangle cfgTimeout command args exclude filters env =
         ([], Except.error CmdErr.runtimeErrorBlacklist)) ∧
    (∀ (mangle : String → String) (cfgTimeout : Option Int) (command : String)
       (args : List String) (exclude filters : Option (List String)) (env : ExecEnv),
       args.any (fun a => black_list.contains a) = true →
       run_command_get_output mangle cfgTimeout command args exclude filters env =
         ([], Except.error CmdErr.runtimeErrorBlacklist)) ∧
    (∀ (mangle : String → String) (cfgTimeout : Option Int) (command : String)
       (args : List String) (exclude filters : Option (List String)) (env : ExecEnv),
       args.any (fun a => black_list.contains a) = false →
       (run_command_get_output mangle cfgTimeout command args exclude filters env).2 ≠
         Except.error CmdErr.runtimeErrorBlacklist) := by
  have hAny : ∀ (mangle : String → String) (cfgTimeout : Option Int) (command : String)
      (args : List String) (exclude filters : Option (List String)) (env : ExecEnv),
      args.any (fun a => black_list.contains a) = true →
      run_command_get_output mangle cfgTimeout command args exclude filters env =
        ([], Except.error CmdErr.runtimeErrorBlacklist) := by
    intro mangle cfgTimeout command args exclude filters env h
    unfold run_command_get_output
    rw [h]
    rfl
  refine ⟨?_, hAny, ?_⟩
  · intro mangle cfgTimeout command args exclude filters env t hhd hct
    apply hAny
    cases args with
    | nil => cases hhd
    | cons a rest =>
      have : a = t := by simpa using hhd
      subst this
      simp only [List.any_cons, hct, Bool.true_or]
  · intro mangle cfgTimeout command args exclude filters env h
    obtain ⟨p, tO, ec, so⟩ := env
    unfold run_command_get_output
    split
    · next hcond =>
        rw [h] at hcond
        cases hcond
    · next =>
        cases p
        · cases tO <;> simp
        · simp
        · simp

/-- Witness for `run_command_blacklist_spec`: `rm -rf /tmp/x` (first
token `rm`) is refused with no process spawned, and `/bin/ls -l` is not
rejected by the blacklist check. -/
theorem run_command_blacklist_spec_witness :
    run_command_get_output (fun c => c) none "rm -rf /tmp/x" ["rm", "-rf", "/tmp/x"]
        none none ⟨PopenOutcome.ok, false, 0, ""⟩ =
      ([], Except.error CmdErr.runtimeErrorBlacklist) ∧
    (run_command_get_output (fun c => c) none "/bin/ls -l" ["/bin/ls", "-l"]
        none none ⟨PopenOutcome.ok, false, 0, "total 0"⟩).2 ≠
      Except.error CmdErr.runtimeErrorBlacklist :=
  ⟨run_command_blacklist_spec.1 (fun c => c) none "rm -rf /tmp/x" ["rm", "-rf", "/tmp/x"]
      none none ⟨PopenOutcome.ok, false, 0, ""⟩ "rm" rfl (by decide),
   run_command_blacklist_spec.2.2 (fun c => c) none "/bin/ls -l" ["/bin/ls", "-l"]
      none none ⟨PopenOutcome.ok, false, 0, "total 0"⟩ (by decide)⟩

/-- C6: every executed command is guarded by exactly one timer armed with
`cmd_timeout` — the `cmd_timeout` config option when present, else the
600-second default — and when that timer fires the monitored process is
killed and the synthetic timed-out result with status 130 is returned
(instead of hanging or raising). -/
theorem run_command_timeout_spec
    (mangle : String → String) (cfgTimeout : Option Int) (command : String)
    (args : List String) (exclude filters : Option (List String)) (env : ExecEnv)
    (hbl : args.any (fun a => black_list.contains a) = false)
    (hp : env.popen = PopenOutcome.ok) :
    default_cmd_timeout = 600 ∧
    CEv.timerStarted (cfgTimeout.getD default_cmd_timeout) ∈
      (run_command_get_output mangle cfgTimeout command args exclude filters env).1 ∧
    (env.timedOut = true →
      (run_command_get_output mangle cfgTimeout command args exclude filters env).2 =
        Except.ok { cmd := mangle command, status := 130,
                    output := "Command took to long to run. Exiting." } ∧
      CEv.killedProc ∈
        (run_command_get_output mangle cfgTimeout command args exclude filters env).1) := by
  have hNo : ¬ ∃ x ∈ args, x ∈ black_list := by
    simpa [List.any_eq_false] using hbl
  refine ⟨rfl, ?_, ?_⟩
  · by_cases ht : env.timedOut <;>
      simp [run_command_get_output, hNo, hp, ht]
  · intro ht
    constructor <;> simp [run_command_get_output, hNo, hp, ht]

/-- Witness for `run_command_timeout_spec`: a hanging command under a
10-second configured timeout is killed and reported with status 130. -/
theorem run_command_timeout_spec_witness :
    (run_command_get_output (fun c => c) (some 10) "/bin/sleep 1000"
        ["/bin/sleep", "1000"] none none ⟨PopenOutcome.ok, true, 0, ""⟩).2 =
      Except.ok { cmd := "/bin/sleep 1000", status := 130,
                  output := "Command took to long to run. Exiting." } ∧
    CEv.timerStarted 10 ∈
      (run_command_get_output (fun c => c) (some 10) "/bin/sleep 1000"
        ["/bin/sleep", "1000"] none none ⟨PopenOutcome.ok, true, 0, ""⟩).1 ∧
    CEv.killedProc ∈
      (run_command_get_output (fun c => c) (some 10) "/bin/sleep 1000"
        ["/bin/sleep", "1000"] none none ⟨PopenOutcome.ok, true, 0, ""⟩).1 := by
  have h := run_command_timeout_spec (fun c => c) (some 10) "/bin/sleep 1000"
    ["/bin/sleep", "1000"] none none ⟨PopenOutcome.ok, true, 0, ""⟩ (by decide) rfl
  exact ⟨(h.2.2 rfl).1, h.2.1, (h.2.2 rfl).2⟩

end Insights
